import Mathlib

/-!
Verification of the `s3file` library (source: `src/s3file/s3file.py`).

The development is a shallow embedding of the Python source:

* `s3errors` embeds the `s3errors` context manager (lines 15-52): it maps a
  caught collaborator error (`botocore ClientError`, `ssl.SSLError`,
  `EndpointConnectionError`) to the `IOError` the source raises, carrying an
  errno and the object path.
* `TempFile` embeds the state of the `tempfile.TemporaryFile` scratch buffer:
  its byte content, cursor, its OS-level read/write capabilities, and whether
  it has been closed.  On POSIX, `TemporaryFile` opens an already-created
  file descriptor via `io.open(fd, mode)`, and CPython never sets `O_APPEND`
  on that descriptor: an `a` in the mode only positions the (still empty)
  fresh file at its end once at open, and every subsequent write lands at
  the current cursor.  The `tf*` operations embed the semantics of the
  corresponding Python file-object methods, including the `ValueError`
  raised on a closed file and the `io.UnsupportedOperation` raised on a
  capability violation.
* `validOpenModeL` embeds CPython's open-mode validation, which
  `TemporaryFile(mode)` performs when the scratch buffer is created: the mode
  must use only characters `axrwb+t` without duplicates, must not combine
  `t` with `b`, and must contain exactly one of `a`, `x`, `r`, `w`.
* `subUpdatableL` embeds `re.sub(r'^([rwa]+)(b?)$', r'\1+\2', mode)`
  (line 69 of the source).
* `Store` models the remote S3 object together with observation counters
  (number of fetch / push calls) and failure injection for the collaborator.
* `S3File.init`, `S3File.close`, `S3File.read`, ... embed the corresponding
  methods of class `S3File`.
-/

deriving instance DecidableEq for Except

namespace S3FileModel

/-- Errno values used by the source's error translation (`errno` module). -/
inductive Errno
  | EPERM
  | ENOENT
  | EACCES
  | EOPNOTSUPP
  | ETIMEDOUT
  deriving DecidableEq

/-- The `IOError` raised by `s3errors`: an errno together with the path of the
s3 object being accessed (third argument of the `IOError` constructor). -/
structure TransIOError where
  errno : Errno
  path : String
  deriving DecidableEq

/-- The collaborator failures caught by `s3errors`.  A `ClientError` carries
`e.response['Error']['Code']` (absent values modelled by `none`) and
`e.response['ResponseMetadata']['HTTPStatusCode']` (absent modelled by
`none`; the source defaults it to 200 via `.get(..., 200)`). -/
inductive BotoError
  | clientError (code : Option String) (httpStatus : Option Nat)
  | sslError
  | endpointConnectionError
  deriving DecidableEq

/-- Embedding of the `s3errors` context manager (source lines 33-52): the
translation applied to a caught collaborator error. -/
def s3errors (e : BotoError) (path : String) : TransIOError :=
  match e with
  | .clientError code httpStatus =>
    let status := httpStatus.getD 200
    if code = some "NoSuchBucket" then ⟨.EPERM, path⟩
    else if status = 404 then ⟨.ENOENT, path⟩
    else if status = 403 then ⟨.EACCES, path⟩
    else ⟨.EOPNOTSUPP, path⟩
  | .sslError => ⟨.EOPNOTSUPP, path⟩
  | .endpointConnectionError => ⟨.ETIMEDOUT, path⟩

/-- Errors surfaced by the embedded stream operations.  `ioError` wraps a
translated collaborator error; `notReadable` / `notWritable` are the
`IOError('not open for reading')` / `IOError('not open for writing')` guards;
`closedFile` is the `ValueError` a Python file raises when used after close;
`negativeSeek` the error for seeking to a negative offset; `unsupportedOp`
the `io.UnsupportedOperation` for an OS-level capability violation of the
scratch buffer itself. -/
inductive Err
  | ioError (e : TransIOError)
  | notReadable
  | notWritable
  | closedFile
  | negativeSeek
  | unsupportedOp
  deriving DecidableEq

/-- The NUL character used for zero-extension of sparse regions, as POSIX
files do on writes or truncation past end-of-file. -/
def nulChar : Char := Char.ofNat 0

/-- State of the local scratch buffer (`tempfile.TemporaryFile`).  There is
no append flag: the fd-based file never gets `O_APPEND` (see the module
comment), so no operation here depends on whether the mode contained `a`
beyond the cursor positioning `S3File.__init__` performs itself. -/
structure TempFile where
  content : List Char
  pos : Nat
  readableOS : Bool
  writableOS : Bool
  closed : Bool
  deriving DecidableEq

/-- Seek origins (`os.SEEK_SET`, `os.SEEK_CUR`, `os.SEEK_END`). -/
inductive Whence
  | set
  | cur
  | toEnd
  deriving DecidableEq

/-- `file.write(data)` on the scratch buffer: the write happens at the
current cursor (the fd never has `O_APPEND`, so this holds for every mode),
overwriting in place and zero-extending any gap past end-of-file. -/
def tfWrite (tf : TempFile) (data : List Char) : Except Err TempFile :=
  if tf.closed then .error .closedFile
  else if !tf.writableOS then .error .unsupportedOp
  else
    let padded := tf.content ++ List.replicate (tf.pos - tf.content.length) nulChar
    .ok ⟨padded.take tf.pos ++ data ++ padded.drop (tf.pos + data.length),
         tf.pos + data.length, tf.readableOS, tf.writableOS, false⟩

/-- `file.read(n)` on the scratch buffer: `n < 0` reads to end-of-file from
the cursor, otherwise at most `n` units are read. -/
def tfRead (tf : TempFile) (n : Int) : Except Err (List Char × TempFile) :=
  if tf.closed then .error .closedFile
  else if !tf.readableOS then .error .unsupportedOp
  else
    let avail := tf.content.drop tf.pos
    let data := if n < 0 then avail else avail.take n.toNat
    .ok (data, { tf with pos := tf.pos + data.length })

/-- One line of a byte sequence: everything up to and including the first
newline, or the whole remainder when no newline occurs. -/
def takeLine : List Char → List Char
  | [] => []
  | c :: cs => if c = '\n' then [c] else c :: takeLine cs

/-- Split a byte sequence into lines, keeping the line terminators. -/
def linesKeepEnds : List Char → List (List Char)
  | [] => []
  | c :: cs =>
    if c = '\n' then ['\n'] :: linesKeepEnds cs
    else
      match linesKeepEnds cs with
      | [] => [[c]]
      | l :: ls => (c :: l) :: ls

/-- `readlines` hint handling of `io.IOBase`: lines are accumulated until the
total size exceeds a positive hint. -/
def linesHintAux (hint : Int) : List (List Char) → Int → List (List Char)
  | [], _ => []
  | l :: ls, size =>
    let size' := size + (l.length : Int)
    l :: (if 0 < hint && hint < size' then [] else linesHintAux hint ls size')

/-- `file.readline(limit)` on the scratch buffer. -/
def tfReadline (tf : TempFile) (limit : Int) : Except Err (List Char × TempFile) :=
  if tf.closed then .error .closedFile
  else if !tf.readableOS then .error .unsupportedOp
  else
    let line := takeLine (tf.content.drop tf.pos)
    let data := if limit < 0 then line else line.take limit.toNat
    .ok (data, { tf with pos := tf.pos + data.length })

/-- `file.readlines(hint)` on the scratch buffer. -/
def tfReadlines (tf : TempFile) (hint : Int) : Except Err (List (List Char) × TempFile) :=
  if tf.closed then .error .closedFile
  else if !tf.readableOS then .error .unsupportedOp
  else
    let ls := linesHintAux hint (linesKeepEnds (tf.content.drop tf.pos)) 0
    .ok (ls, { tf with pos := tf.pos + (ls.map List.length).sum })

/-- `file.seek(offset, whence)` on the scratch buffer. -/
def tfSeek (tf : TempFile) (off : Int) (w : Whence) : Except Err (TempFile × Nat) :=
  if tf.closed then .error .closedFile
  else
    let base : Int :=
      match w with
      | .set => 0
      | .cur => tf.pos
      | .toEnd => tf.content.length
    let np := base + off
    if np < 0 then .error .negativeSeek
    else .ok ({ tf with pos := np.toNat }, np.toNat)

/-- `file.tell()` on the scratch buffer. -/
def tfTell (tf : TempFile) : Except Err Nat :=
  if tf.closed then .error .closedFile else .ok tf.pos

/-- `file.truncate(size)` on the scratch buffer: resize to exactly `size`,
zero-extending past end-of-file; the cursor does not move. -/
def tfTruncate (tf : TempFile) (size : Nat) : Except Err TempFile :=
  if tf.closed then .error .closedFile
  else if !tf.writableOS then .error .unsupportedOp
  else
    let newContent :=
      if size ≤ tf.content.length then tf.content.take size
      else tf.content ++ List.replicate (size - tf.content.length) nulChar
    .ok { tf with content := newContent }

/-- `file.writelines(lines)` on the scratch buffer: each element written in
turn, with no added separators. -/
def tfWriteAll (tf : TempFile) : List (List Char) → Except Err TempFile
  | [] => .ok tf
  | l :: ls =>
    match tfWrite tf l with
    | .error e => .error e
    | .ok tf₁ => tfWriteAll tf₁ ls

/-- `file.close()` on the scratch buffer (idempotent in Python). -/
def tfClose (tf : TempFile) : TempFile :=
  { tf with closed := true }

/-- The remote store: the current object body (`none` when the object does
not exist), counters observing how many fetch / push collaborator calls were
made, and optional injected collaborator failures. -/
structure Store where
  obj : Option (List Char)
  fetchCount : Nat
  pushCount : Nat
  fetchFail : Option BotoError
  pushFail : Option BotoError
  deriving DecidableEq

/-- `s3.Object(bucket, key).download_fileobj(...)`: produces the object body
or a collaborator error (a missing object surfaces as a 404 `ClientError`).
Every call is counted. -/
def storeFetch (s : Store) : (Except BotoError (List Char)) × Store :=
  let s₁ := { s with fetchCount := s.fetchCount + 1 }
  match s.fetchFail with
  | some e => (.error e, s₁)
  | none =>
    match s.obj with
    | some c => (.ok c, s₁)
    | none => (.error (.clientError (some "NoSuchKey") (some 404)), s₁)

/-- `s3.Object(bucket, key).upload_fileobj(...)`: replaces the object body
with the given content, or fails with the injected collaborator error.
Every call is counted. -/
def storePush (s : Store) (content : List Char) : (Except BotoError Unit) × Store :=
  let s₁ := { s with pushCount := s.pushCount + 1 }
  match s.pushFail with
  | some e => (.error e, s₁)
  | none => (.ok (), { s₁ with obj := some content })

/-- Character membership test embedding Python's `c in mode` on strings. -/
def chIn (c : Char) (s : String) : Bool := s.data.contains c

/-- Characters accepted by the character class `[rwa]` of the source's
regular expression. -/
def isRWA (c : Char) : Bool := c == 'r' || c == 'w' || c == 'a'

/-- Embedding of `re.sub(r'^([rwa]+)(b?)$', r'\1+\2', mode)` on the character
list of the mode: when the whole token is a non-empty run of `r`/`w`/`a`
followed by an optional `b`, a `+` is inserted after the run. -/
def subUpdatableL (cs : List Char) : List Char :=
  let core := cs.takeWhile isRWA
  let rest := cs.dropWhile isRWA
  if core.isEmpty then cs
  else if rest.isEmpty || rest == ['b'] then core ++ '+' :: rest
  else cs

/-- String wrapper for `subUpdatableL`. -/
def subUpdatable (m : String) : String := ⟨subUpdatableL m.data⟩

/-- The characters CPython's open-mode parser accepts. -/
def modeAlphabet : List Char := ['a', 'x', 'r', 'w', 'b', '+', 't']

/-- The characters that select one of create / read / write / append. -/
def isSelector (c : Char) : Bool := c == 'a' || c == 'x' || c == 'r' || c == 'w'

/-- Embedding of CPython's open-mode validation, performed by
`TemporaryFile(mode)` when the scratch buffer is created: only characters
from `axrwb+t`, no duplicates, not both `t` and `b`, and exactly one of
`a`/`x`/`r`/`w`. -/
def validOpenModeL (cs : List Char) : Bool :=
  decide (∀ c ∈ cs, c ∈ modeAlphabet) &&
  decide cs.Nodup &&
  !(decide ('t' ∈ cs) && decide ('b' ∈ cs)) &&
  (cs.countP isSelector == 1)

/-- The file-like proxy: object locator, the original mode token, and the
exclusively owned scratch buffer. -/
structure S3File where
  bucket : String
  key : String
  mode : String
  tempfile : TempFile
  deriving DecidableEq

/-- `self.path = self.bucket + '/' + self.key` (source line 64). -/
def S3File.path (f : S3File) : String := f.bucket ++ "/" ++ f.key

/-- `readable`: `'r' in self.mode or '+' in self.mode` (source line 116). -/
def S3File.readable (f : S3File) : Bool := chIn 'r' f.mode || chIn '+' f.mode

/-- `writable`: `'w' in self.mode or 'a' in self.mode or '+' in self.mode or
'x' in self.mode` (source line 147). -/
def S3File.writable (f : S3File) : Bool :=
  chIn 'w' f.mode || chIn 'a' f.mode || chIn '+' f.mode || chIn 'x' f.mode

/-- `S3File.close` (source lines 93-100): when `writable`, seek the buffer to
the start and push its whole content (the push reads the scratch buffer, so
it needs its OS-level read capability); in every case — also when the seek,
the buffer read, or the push fails — the scratch buffer is closed, as the
source's `finally` guarantees.  Returns the outcome, the updated stream and
the updated store. -/
def S3File.close (f : S3File) (s : Store) : (Except Err Unit) × S3File × Store :=
  if f.writable then
    match tfSeek f.tempfile 0 .set with
    | .error e => (.error e, { f with tempfile := tfClose f.tempfile }, s)
    | .ok (tf₁, _) =>
      match tfRead tf₁ (-1) with
      | .error e => (.error e, { f with tempfile := tfClose tf₁ }, s)
      | .ok (data, tf₂) =>
        match storePush s data with
        | (.ok _, s₁) => (.ok (), { f with tempfile := tfClose tf₂ }, s₁)
        | (.error e, s₁) =>
          (.error (.ioError (s3errors e f.path)), { f with tempfile := tfClose tf₂ }, s₁)
  else
    (.ok (), { f with tempfile := tfClose f.tempfile }, s)

/-- Outcome of `S3File.__init__`: success, rejection of the mode token by the
scratch-buffer layer (no buffer was ever created), or a construction failure
after the buffer existed (`failed` carries the propagated error and the final
stream state after the source's `except Exception: self.close(); raise`). -/
inductive InitResult
  | ok (f : S3File) (s : Store)
  | invalidMode (m : String) (s : Store)
  | failed (e : Err) (f : S3File) (s : Store)
  deriving DecidableEq

/-- The cleanup path of `__init__` (source lines 83-85): `self.close()` runs,
then the original error is re-raised — unless `close` itself raised, in which
case that error replaces the original one. -/
def initCleanup (e : Err) (f : S3File) (s : Store) : InitResult :=
  match S3File.close f s with
  | (.ok _, f', s') => .failed e f' s'
  | (.error e', f', s') => .failed e' f' s'

/-- The fetch step of `__init__`: download the object into the scratch buffer
(translating collaborator failures via `s3errors` with the object path), then
`self.seek(0, whence)`. -/
def initFetch (f : S3File) (s : Store) (w : Whence) : InitResult :=
  match storeFetch s with
  | (.error e, s₁) => initCleanup (.ioError (s3errors e f.path)) f s₁
  | (.ok content, s₁) =>
    match tfWrite f.tempfile content with
    | .error e => initCleanup e f s₁
    | .ok tf₁ =>
      match tfSeek tf₁ 0 w with
      | .error e => initCleanup e { f with tempfile := tf₁ } s₁
      | .ok (tf₂, _) => .ok { f with tempfile := tf₂ } s₁

/-- `S3File.__init__` (source lines 59-85): derive the updatable mode via the
regular expression, create the scratch buffer (CPython validates the mode
here and raises `ValueError` for an unrecognized token, before any store
I/O), then fetch the remote content when the mode demands it — `'a' in mode`
fetches and seeks to the end, a mode with none of `a`/`w`/`x` fetches and
seeks to the start — with the source's cleanup-on-failure wrapper. -/
def S3File.init (bucket key mode : String) (store : Store) : InitResult :=
  let um := subUpdatable mode
  if validOpenModeL um.data then
    let tf : TempFile :=
      ⟨[], 0, chIn 'r' um || chIn '+' um,
       chIn 'w' um || chIn 'a' um || chIn 'x' um || chIn '+' um, false⟩
    let f : S3File := ⟨bucket, key, mode, tf⟩
    if chIn 'a' mode then
      initFetch f store .toEnd
    else if !(chIn 'a' mode) && !(chIn 'w' mode) && !(chIn 'x' mode) then
      initFetch f store .set
    else
      .ok f store
  else
    .invalidMode um store

/-- `S3File.read` (source lines 118-121). -/
def S3File.read (f : S3File) (n : Int) : (Except Err (List Char)) × S3File :=
  if !f.readable then (.error .notReadable, f)
  else
    match tfRead f.tempfile n with
    | .error e => (.error e, f)
    | .ok (data, tf₁) => (.ok data, { f with tempfile := tf₁ })

/-- `S3File.readinto` (source lines 123-124): delegates directly to the
scratch buffer, with no capability guard; reads at most the length of the
supplied buffer and returns the number of units read. -/
def S3File.readinto (f : S3File) (blen : Nat) : (Except Err Nat) × S3File :=
  match tfRead f.tempfile blen with
  | .error e => (.error e, f)
  | .ok (data, tf₁) => (.ok data.length, { f with tempfile := tf₁ })

/-- `S3File.readline` (source lines 126-129). -/
def S3File.readline (f : S3File) (limit : Int) : (Except Err (List Char)) × S3File :=
  if !f.readable then (.error .notReadable, f)
  else
    match tfReadline f.tempfile limit with
    | .error e => (.error e, f)
    | .ok (data, tf₁) => (.ok data, { f with tempfile := tf₁ })

/-- `S3File.readlines` (source lines 131-134). -/
def S3File.readlines (f : S3File) (hint : Int) : (Except Err (List (List Char))) × S3File :=
  if !f.readable then (.error .notReadable, f)
  else
    match tfReadlines f.tempfile hint with
    | .error e => (.error e, f)
    | .ok (ls, tf₁) => (.ok ls, { f with tempfile := tf₁ })

/-- `S3File.seek` (source lines 136-138): delegate to the buffer, return the
new position. -/
def S3File.seek (f : S3File) (off : Int) (w : Whence) : (Except Err Nat) × S3File :=
  match tfSeek f.tempfile off w with
  | .error e => (.error e, f)
  | .ok (tf₁, n) => (.ok n, { f with tempfile := tf₁ })

/-- `S3File.tell` (source lines 143-144). -/
def S3File.tell (f : S3File) : Except Err Nat := tfTell f.tempfile

/-- `S3File.write` (source lines 149-153): guard on `writable`, write to the
buffer, return `len(b)`. -/
def S3File.write (f : S3File) (data : List Char) : (Except Err Nat) × S3File :=
  if !f.writable then (.error .notWritable, f)
  else
    match tfWrite f.tempfile data with
    | .error e => (.error e, f)
    | .ok tf₁ => (.ok data.length, { f with tempfile := tf₁ })

/-- `S3File.writelines` (source lines 155-158). -/
def S3File.writelines (f : S3File) (ls : List (List Char)) : (Except Err Unit) × S3File :=
  if !f.writable then (.error .notWritable, f)
  else
    match tfWriteAll f.tempfile ls with
    | .error e => (.error e, f)
    | .ok tf₁ => (.ok (), { f with tempfile := tf₁ })

/-- `S3File.truncate` (source lines 160-168): guard on `writable`; when the
size is omitted the current cursor position (`self.tell()`) is used; resize
the buffer and return the size. -/
def S3File.truncate (f : S3File) (size : Option Nat) : (Except Err Nat) × S3File :=
  if !f.writable then (.error .notWritable, f)
  else
    match (match size with | some sz => .ok sz | none => tfTell f.tempfile : Except Err Nat) with
    | .error e => (.error e, f)
    | .ok sz =>
      match tfTruncate f.tempfile sz with
      | .error e => (.error e, f)
      | .ok tf₁ => (.ok sz, { f with tempfile := tf₁ })

/-- Projection helpers for `InitResult`, used to state claims. -/
def initOk : InitResult → Option (S3File × Store)
  | .ok f s => some (f, s)
  | _ => none

/-- The propagated error of a failed construction, when construction failed
after the scratch buffer existed. -/
def initFailedErr : InitResult → Option Err
  | .failed e _ _ => some e
  | _ => none

/-- The final store state of a construction attempt. -/
def initStore : InitResult → Store
  | .ok _ s => s
  | .invalidMode _ s => s
  | .failed _ _ s => s

/-! ## Spec-side definitions

`specErrnoOf` follows the words of the spec's error-translation policy
(§4.3), to be compared with the source-derived `s3errors`. -/

/-- Modelled from the spec's §4.3 wording, for comparison with `s3errors`:
container-does-not-exist maps to `PermissionDenied` before the HTTP status is
consulted; then 404-equivalent to `NotFound`, 403-equivalent to
`PermissionDenied`, any other status to `Unsupported`; secure-transport
failure to `Unsupported`; endpoint-unreachable to `TimedOut`. -/
def specErrnoOf : BotoError → Errno
  | .clientError code httpStatus =>
    if code = some "NoSuchBucket" then .EPERM
    else
      let status := httpStatus.getD 200
      if status = 404 then .ENOENT
      else if status = 403 then .EACCES
      else .EOPNOTSUPP
  | .sslError => .EOPNOTSUPP
  | .endpointConnectionError => .ETIMEDOUT

/-- Spec-side translated error: the errno of `specErrnoOf` together with the
Object Locator's path. -/
def specTranslate (e : BotoError) (locatorPath : String) : TransIOError :=
  ⟨specErrnoOf e, locatorPath⟩

/-! ## Helper lemmas -/

theorem s3errors_path (e : BotoError) (p : String) : (s3errors e p).path = p := by
  cases e with
  | clientError code hs =>
    simp only [s3errors]
    split_ifs <;> rfl
  | sslError => rfl
  | endpointConnectionError => rfl

theorem isRWA_of_mem_core {cs : List Char} {c : Char}
    (h : c ∈ cs.takeWhile isRWA) : isRWA c = true :=
  List.mem_takeWhile_imp h

theorem plus_not_rwa : isRWA '+' = false := by decide

theorem ne_plus_of_rwa {c : Char} (h : isRWA c = true) : c ≠ '+' := by
  intro hc
  subst hc
  simp [isRWA] at h

/-- Inserting a `+` that occurs nowhere else, and is not a selector, does not
change open-mode validity. -/
theorem valid_insert_plus (l r : List Char)
    (hl : ∀ c ∈ l, isRWA c = true) (hr : '+' ∉ r) :
    validOpenModeL (l ++ '+' :: r) = validOpenModeL (l ++ r) := by
  have hplus_l : '+' ∉ l := fun h => ne_plus_of_rwa (hl _ h) rfl
  have halpha : (decide (∀ c ∈ l ++ '+' :: r, c ∈ modeAlphabet))
      = (decide (∀ c ∈ l ++ r, c ∈ modeAlphabet)) := by
    apply decide_eq_decide.mpr
    constructor
    · intro h c hc
      rcases List.mem_append.mp hc with h1 | h1
      · exact h c (List.mem_append.mpr (Or.inl h1))
      · exact h c (List.mem_append.mpr (Or.inr (List.mem_cons_of_mem _ h1)))
    · intro h c hc
      rcases List.mem_append.mp hc with h1 | h1
      · exact h c (List.mem_append.mpr (Or.inl h1))
      · rcases List.mem_cons.mp h1 with h2 | h2
        · subst h2; decide
        · exact h c (List.mem_append.mpr (Or.inr h2))
  have hnodup : (decide (l ++ '+' :: r).Nodup) = (decide (l ++ r).Nodup) := by
    apply decide_eq_decide.mpr
    rw [List.nodup_middle, List.nodup_cons]
    constructor
    · exact fun h => h.2
    · intro h
      refine ⟨?_, h⟩
      intro hc
      rcases List.mem_append.mp hc with h1 | h1
      · exact hplus_l h1
      · exact hr h1
  have hmem : ∀ x : Char, x ≠ '+' →
      (decide (x ∈ l ++ '+' :: r)) = (decide (x ∈ l ++ r)) := by
    intro x hx
    apply decide_eq_decide.mpr
    constructor
    · intro h
      rcases List.mem_append.mp h with h1 | h1
      · exact List.mem_append.mpr (Or.inl h1)
      · rcases List.mem_cons.mp h1 with h2 | h2
        · exact absurd h2 hx
        · exact List.mem_append.mpr (Or.inr h2)
    · intro h
      rcases List.mem_append.mp h with h1 | h1
      · exact List.mem_append.mpr (Or.inl h1)
      · exact List.mem_append.mpr (Or.inr (List.mem_cons_of_mem _ h1))
  have hcount : (l ++ '+' :: r).countP isSelector = (l ++ r).countP isSelector := by
    simp [List.countP_append, List.countP_cons, isSelector]
  simp only [validOpenModeL, halpha, hnodup, hcount,
    hmem 't' (by decide), hmem 'b' (by decide)]

/-- The regular-expression rewrite of the source preserves open-mode
validity: a token is accepted by the scratch-buffer layer iff the original
token was a valid open mode. -/
theorem valid_subUpdatableL (cs : List Char) :
    validOpenModeL (subUpdatableL cs) = validOpenModeL cs := by
  simp only [subUpdatableL]
  by_cases h1 : (cs.takeWhile isRWA).isEmpty
  · simp [h1]
  · by_cases h2 : ((cs.dropWhile isRWA).isEmpty || (cs.dropWhile isRWA == ['b'])) = true
    · simp only [h1, h2, Bool.false_eq_true, if_false, if_true]
      have hl : ∀ c ∈ cs.takeWhile isRWA, isRWA c = true := fun _ hc => isRWA_of_mem_core hc
      have hr : '+' ∉ cs.dropWhile isRWA := by
        rcases (Bool.or_eq_true _ _).mp h2 with h | h
        · rw [List.isEmpty_iff.mp h]
          simp
        · rw [show cs.dropWhile isRWA = ['b'] from beq_iff_eq.mp h]
          decide
      rw [valid_insert_plus _ _ hl hr, List.takeWhile_append_dropWhile]
    · simp [h1, h2]

theorem valid_subUpdatable (m : String) :
    validOpenModeL (subUpdatable m).data = validOpenModeL m.data :=
  valid_subUpdatableL m.data

/-- `close` always leaves the scratch buffer closed, whatever its outcome
(the source's `finally`). -/
theorem close_tempfile_closed (f : S3File) (s : Store) :
    ((S3File.close f s).2.1).tempfile.closed = true := by
  unfold S3File.close
  split
  · split
    · rfl
    · split
      · rfl
      · split
        · rfl
        · rfl
  · rfl

/-- The store returned by a push call: the push counter advances and at most
the object body changes. -/
theorem storePush_snd_fetchCount (s : Store) (c : List Char) :
    ((storePush s c).2).fetchCount = s.fetchCount := by
  unfold storePush
  rcases s.pushFail with _ | e <;> rfl

/-- `close` never performs a remote fetch. -/
theorem close_fetchCount (f : S3File) (s : Store) :
    ((S3File.close f s).2.2).fetchCount = s.fetchCount := by
  unfold S3File.close
  split
  · split
    · rfl
    · split
      · rfl
      · split
        next heq =>
          have h2 := congrArg (fun p => (p.2).fetchCount) heq
          simp only [storePush_snd_fetchCount] at h2
          exact h2.symm
        next heq =>
          have h2 := congrArg (fun p => (p.2).fetchCount) heq
          simp only [storePush_snd_fetchCount] at h2
          exact h2.symm
  · rfl

/-- The cleanup path keeps the store that `close` produced. -/
theorem initCleanup_store (e : Err) (f : S3File) (s : Store) :
    initStore (initCleanup e f s) = (S3File.close f s).2.2 := by
  unfold initCleanup
  rcases h : S3File.close f s with ⟨r, f', s'⟩
  cases r <;> simp [initStore]

/-- The store returned by a fetch call: the fetch counter advances, nothing
else changes. -/
theorem storeFetch_snd (s : Store) :
    (storeFetch s).2 = { s with fetchCount := s.fetchCount + 1 } := by
  unfold storeFetch
  rcases s.fetchFail with _ | e
  · rcases s.obj with _ | c <;> rfl
  · rfl

/-- Whatever happens after the fetch call of `__init__` (including the
cleanup path, which may push), exactly one fetch is counted. -/
theorem initFetch_fetchCount (f : S3File) (s : Store) (w : Whence) :
    (initStore (initFetch f s w)).fetchCount = s.fetchCount + 1 := by
  unfold initFetch
  rcases h : storeFetch s with ⟨r, s₁⟩
  have hs₁ : s₁ = { s with fetchCount := s.fetchCount + 1 } := by
    have := storeFetch_snd s
    rw [h] at this
    exact this
  subst hs₁
  cases r with
  | error e =>
    simp only [initCleanup_store, close_fetchCount]
  | ok content =>
    rcases hw : tfWrite f.tempfile content with e | tf₁
    · simp only [hw, initCleanup_store, close_fetchCount]
    · rcases hk : tfSeek tf₁ 0 w with e | ⟨tf₂, n⟩
      · simp only [hw, hk, initCleanup_store, close_fetchCount]
      · simp only [hw, hk, initStore]

/-- Evaluation of `close` for a writable stream whose scratch buffer is open
and OS-readable, with no injected push failure: the buffer is rewound, its
whole content is pushed once, and the buffer is closed. -/
theorem close_writable_eval (f : S3File) (s : Store)
    (hw : f.writable = true) (ho : f.tempfile.closed = false)
    (hr : f.tempfile.readableOS = true) (hp : s.pushFail = none) :
    S3File.close f s =
      (.ok (),
       { f with tempfile := { f.tempfile with pos := f.tempfile.content.length, closed := true } },
       { s with pushCount := s.pushCount + 1, obj := some f.tempfile.content }) := by
  have hseek : tfSeek f.tempfile 0 .set = .ok ({ f.tempfile with pos := 0 }, 0) := by
    simp [tfSeek, ho]
  have hread : tfRead { f.tempfile with pos := 0 } (-1) =
      .ok (f.tempfile.content, { f.tempfile with pos := f.tempfile.content.length }) := by
    simp [tfRead, ho, hr]
  have hpush : storePush s f.tempfile.content =
      (.ok (), { s with pushCount := s.pushCount + 1, obj := some f.tempfile.content }) := by
    simp [storePush, hp]
  simp only [S3File.close, hw, if_true, hseek, hread, hpush, tfClose]

/-- Evaluation of `close` for a non-writable stream: no push, the store is
untouched, the buffer is closed. -/
theorem close_not_writable_eval (f : S3File) (s : Store) (hw : f.writable = false) :
    S3File.close f s = (.ok (), { f with tempfile := tfClose f.tempfile }, s) := by
  simp [S3File.close, hw]

/-- Evaluation of a successful construction in a pure read mode ("r" or
"rb"): the remote content is fetched into the buffer and the cursor is
rewound to the start. -/
theorem init_read_mode_eval (b k m : String) (X : List Char) (store : Store)
    (hm : m = "r" ∨ m = "rb")
    (hobj : store.obj = some X) (hff : store.fetchFail = none) :
    S3File.init b k m store =
      .ok ⟨b, k, m, ⟨X, 0, true, true, false⟩⟩
        { store with fetchCount := store.fetchCount + 1 } := by
  rcases hm with hm | hm <;> subst hm <;>
    simp +decide [S3File.init, initFetch, storeFetch, tfWrite, tfSeek, hobj, hff, nulChar]

/-- Evaluation of a successful construction in an append mode ("a" or "a+"):
the remote content is fetched into the buffer and the cursor ends at
end-of-buffer (the one-time `seek(0, SEEK_END)` the source performs). -/
theorem init_append_mode_eval (b k m : String) (X : List Char) (store : Store)
    (hm : m = "a" ∨ m = "a+")
    (hobj : store.obj = some X) (hff : store.fetchFail = none) :
    S3File.init b k m store =
      .ok ⟨b, k, m, ⟨X, X.length, true, true, false⟩⟩
        { store with fetchCount := store.fetchCount + 1 } := by
  have h0 : ¬((X.length : Int) < 0) := by omega
  rcases hm with hm | hm <;> subst hm <;>
    simp +decide [S3File.init, initFetch, storeFetch, tfWrite, tfSeek, hobj, hff, nulChar, h0,
      show subUpdatable "a" = "a+" from rfl, show subUpdatable "a+" = "a+" from rfl,
      show chIn 'a' "a" = true from rfl, show chIn 'a' "a+" = true from rfl,
      show chIn 'r' "a+" = false from rfl, show chIn '+' "a+" = true from rfl,
      show chIn 'w' "a+" = false from rfl, show chIn 'x' "a+" = false from rfl]

/-- A successful `seek` only repositions the cursor, to the returned
position. -/
theorem seek_ok_shape (f f₁ : S3File) (off : Int) (w : Whence) (n : Nat)
    (h : S3File.seek f off w = (.ok n, f₁)) :
    f₁ = { f with tempfile := { f.tempfile with pos := n } } := by
  simp only [S3File.seek, tfSeek] at h
  split at h
  · simp at h
  next tf₁ m heq =>
    split at heq
    · exact absurd heq (by simp)
    · split at heq
      · exact absurd heq (by simp)
      · injection heq with heq1
        rw [Prod.mk.injEq] at heq1
        obtain ⟨ht, hm2⟩ := heq1
        subst ht
        subst hm2
        rw [Prod.mk.injEq] at h
        obtain ⟨h1, h2⟩ := h
        injection h1 with h1
        subst h1
        exact h2.symm

/-- Evaluation of `write` on a writable stream whose scratch buffer is open
and OS-writable, when the cursor currently sits at end-of-buffer: the data
is appended and the cursor moves to the new end.  (With the cursor anywhere
else the write overwrites in place instead — see the C2 counterexample.) -/
theorem write_at_end_eval (f : S3File) (data : List Char)
    (hw : f.writable = true) (ho : f.tempfile.closed = false)
    (hwos : f.tempfile.writableOS = true)
    (hpos : f.tempfile.pos = f.tempfile.content.length) :
    S3File.write f data =
      (.ok data.length,
       { f with tempfile := { f.tempfile with
                              content := f.tempfile.content ++ data,
                              pos := (f.tempfile.content ++ data).length,
                              closed := false } }) := by
  have hdrop : f.tempfile.content.drop (f.tempfile.pos + data.length) = [] :=
    List.drop_eq_nil_of_le (by omega)
  simp [S3File.write, tfWrite, hw, ho, hwos, hpos, nulChar, hdrop, List.take_length,
    List.length_append]

/-- A failed-construction outcome built by the cleanup path always carries a
closed (released) scratch buffer. -/
theorem initCleanup_failed_closed (e : Err) (f₀ : S3File) (s : Store)
    (e' : Err) (f : S3File) (s' : Store)
    (h : initCleanup e f₀ s = .failed e' f s') : f.tempfile.closed = true := by
  unfold initCleanup at h
  rcases hc : S3File.close f₀ s with ⟨r, f₁, s₁⟩
  rw [hc] at h
  have hclosed := close_tempfile_closed f₀ s
  rw [hc] at hclosed
  cases r with
  | ok u =>
    injection h with h1 h2 h3
    rw [← h2]
    exact hclosed
  | error e₁ =>
    injection h with h1 h2 h3
    rw [← h2]
    exact hclosed

/-- A failed fetch step of `__init__` always carries a closed scratch
buffer. -/
theorem initFetch_failed_closed (f₀ : S3File) (s : Store) (w : Whence)
    (e : Err) (f : S3File) (s' : Store)
    (h : initFetch f₀ s w = .failed e f s') : f.tempfile.closed = true := by
  unfold initFetch at h
  split at h
  · exact initCleanup_failed_closed _ _ _ _ _ _ h
  · split at h
    · exact initCleanup_failed_closed _ _ _ _ _ _ h
    · split at h
      · exact initCleanup_failed_closed _ _ _ _ _ _ h
      · simp at h

/-- Every failed construction (after the scratch buffer existed) leaves the
buffer closed. -/
theorem init_failed_closed (b k m : String) (store : Store)
    (e : Err) (f : S3File) (s' : Store)
    (h : S3File.init b k m store = .failed e f s') : f.tempfile.closed = true := by
  simp only [S3File.init] at h
  split at h
  · split at h
    · exact initFetch_failed_closed _ _ _ _ _ _ h
    · split at h
      · exact initFetch_failed_closed _ _ _ _ _ _ h
      · simp at h
  · simp at h

/-- Capabilities only depend on the mode, so they survive any buffer
update. -/
theorem writable_update (f : S3File) (tf : TempFile) :
    ({ f with tempfile := tf } : S3File).writable = f.writable := rfl

/-- Evaluation of `truncate` with an explicit size on a writable stream with
an open, OS-writable buffer. -/
theorem truncate_some_eval (f : S3File) (sz : Nat)
    (hw : f.writable = true) (ho : f.tempfile.closed = false)
    (hwos : f.tempfile.writableOS = true) :
    S3File.truncate f (some sz) =
      (.ok sz,
       { f with tempfile := { f.tempfile with
                              content :=
                                if sz ≤ f.tempfile.content.length
                                then f.tempfile.content.take sz
                                else f.tempfile.content ++
                                  List.replicate (sz - f.tempfile.content.length) nulChar } }) := by
  simp only [S3File.truncate, hw, Bool.not_true, Bool.false_eq_true, if_false, tfTruncate, ho,
    hwos, Bool.not_false, if_true]

/-- Evaluation of `truncate` with no size argument: the current cursor
position is used. -/
theorem truncate_none_eval (f : S3File)
    (hw : f.writable = true) (ho : f.tempfile.closed = false)
    (hwos : f.tempfile.writableOS = true) :
    S3File.truncate f none =
      (.ok f.tempfile.pos,
       { f with tempfile := { f.tempfile with
                              content :=
                                if f.tempfile.pos ≤ f.tempfile.content.length
                                then f.tempfile.content.take f.tempfile.pos
                                else f.tempfile.content ++
                                  List.replicate (f.tempfile.pos - f.tempfile.content.length)
                                    nulChar } }) := by
  simp only [S3File.truncate, hw, Bool.not_true, Bool.false_eq_true, if_false, tfTell, tfTruncate,
    ho, hwos, Bool.not_false, if_true]

/-- The resized buffer has exactly the requested length. -/
theorem resize_length (c : List Char) (sz : Nat) :
    (if sz ≤ c.length then c.take sz
     else c ++ List.replicate (sz - c.length) nulChar).length = sz := by
  split
  · simp [List.length_take]
    omega
  · simp [List.length_append, List.length_replicate]
    omega

/-! ## Claim theorems -/

/-- C1: for every failure raised by the object-store collaborator during a
wrapped fetch or push, the source's translation `s3errors` agrees with the
spec-side taxonomy `specTranslate` in the claimed precedence order — a
container-does-not-exist error becomes `PermissionDenied` (EPERM) even
before the HTTP status is consulted, an HTTP-404-equivalent status becomes
`NotFound` (ENOENT), an HTTP-403-equivalent status `PermissionDenied`
(EACCES), any other transport status `Unsupported` (EOPNOTSUPP), a
secure-transport failure `Unsupported`, and an endpoint-unreachable failure
`TimedOut` (ETIMEDOUT) — and every translated error carries the Object
Locator's path, `bucket ++ "/" ++ key`. -/
theorem c1_error_translation (bucket key mode : String) (tf : TempFile) (e : BotoError) :
    s3errors e (S3File.path ⟨bucket, key, mode, tf⟩) = specTranslate e (bucket ++ "/" ++ key) ∧
    (s3errors e (S3File.path ⟨bucket, key, mode, tf⟩)).path = bucket ++ "/" ++ key := by
  have hpath : S3File.path ⟨bucket, key, mode, tf⟩ = bucket ++ "/" ++ key := rfl
  rw [hpath]
  refine ⟨?_, s3errors_path e _⟩
  cases e with
  | clientError code hs =>
    simp only [s3errors, specTranslate, specErrnoOf]
    split_ifs <;> rfl
  | sslError => rfl
  | endpointConnectionError => rfl

/-- C4: a mode token matching none of the recognized forms — exactly one
selector from {r, w, a, x}, optionally combined with `+` and/or one
binary/text marker, captured by `validOpenModeL` — is rejected when the
scratch buffer is created: construction fails with the invalid-mode error
before any I/O is attempted (the store is returned untouched, so no fetch
or push happened). -/
theorem c4_invalid_mode_rejected (bucket key mode : String) (store : Store)
    (h : validOpenModeL mode.data = false) :
    S3File.init bucket key mode store = .invalidMode (subUpdatable mode) store := by
  have h' : validOpenModeL (subUpdatable mode).data = false := by
    rw [valid_subUpdatable]
    exact h
  simp [S3File.init, h']

theorem c4_witness :
    validOpenModeL "z".data = false ∧
    S3File.init "b" "k" "z" ⟨some ['x'], 0, 0, none, none⟩ =
      .invalidMode (subUpdatable "z") ⟨some ['x'], 0, 0, none, none⟩ :=
  ⟨by decide, c4_invalid_mode_rejected "b" "k" "z" ⟨some ['x'], 0, 0, none, none⟩ (by decide)⟩

/-- C2 counterexample: on a stream opened in mode "a" on remote content
`['G','e','t']`, seeking to the start and then writing `['u']` and `['v']`
does not land the writes at end-of-buffer: the scratch file has no
`O_APPEND`, so the writes overwrite in place and close pushes
`['u','v','t']` instead of the `['G','e','t','u','v']` the claim requires. -/
theorem c2_counterexample :
    ((initOk (S3File.init "b" "k" "a" ⟨some ['G', 'e', 't'], 0, 0, none, none⟩)).map
      (fun p =>
        ((S3File.close
            ((S3File.write ((S3File.write ((S3File.seek p.1 0 .set).2) ['u']).2) ['v']).2)
            p.2).2.2).obj))
      = some (some ['u', 'v', 't']) ∧
    ((initOk (S3File.init "b" "k" "a" ⟨some ['G', 'e', 't'], 0, 0, none, none⟩)).map
      (fun p =>
        ((S3File.close
            ((S3File.write ((S3File.write ((S3File.seek p.1 0 .set).2) ['u']).2) ['v']).2)
            p.2).2.2).obj))
      ≠ some (some (['G', 'e', 't'] ++ ['u'] ++ ['v'])) :=
  ⟨rfl, by decide⟩

/-- C2 (amended): for a stream opened in mode "a" or "a+" on a remote object
with existing content `X`, the cursor is positioned at end-of-buffer
immediately after construction, and — with no intervening seeks — writing
`Y1` then `Y2` and closing pushes exactly `X ++ Y1 ++ Y2` in a single store
push (each write lands at the cursor, which is then at end-of-buffer).
Append is a one-time positioning at open, not a per-write invariant: a
write issued after a seek lands at the current cursor and overwrites in
place, because the scratch file descriptor never has `O_APPEND`. -/
theorem c2_append_no_seek (b k m : String) (X Y1 Y2 : List Char)
    (store : Store) (f : S3File) (s₁ : Store)
    (hm : m = "a" ∨ m = "a+")
    (hobj : store.obj = some X) (hff : store.fetchFail = none) (hp : store.pushFail = none)
    (hinit : S3File.init b k m store = .ok f s₁) :
    f.tempfile.pos = X.length ∧
    (S3File.write f Y1).1 = .ok Y1.length ∧
    ((S3File.write f Y1).2).tempfile.content = X ++ Y1 ∧
    ((S3File.write ((S3File.write f Y1).2) Y2).2).tempfile.content = X ++ Y1 ++ Y2 ∧
    ((S3File.write ((S3File.write f Y1).2) Y2).2).tempfile.pos = (X ++ Y1 ++ Y2).length ∧
    ((S3File.close ((S3File.write ((S3File.write f Y1).2) Y2).2) s₁).2.2).obj
      = some (X ++ Y1 ++ Y2) ∧
    ((S3File.close ((S3File.write ((S3File.write f Y1).2) Y2).2) s₁).2.2).pushCount
      = store.pushCount + 1 := by
  have heval := init_append_mode_eval b k m X store hm hobj hff
  rw [heval] at hinit
  injection hinit with hf hs
  subst hf
  subst hs
  rcases hm with hm | hm <;> subst hm <;>
    rw [write_at_end_eval _ Y1 (by rfl) (by rfl) (by rfl) (by rfl),
      write_at_end_eval _ Y2 (by rfl) (by rfl) (by rfl) (by rfl),
      close_writable_eval _ _ (by rfl) (by rfl) (by rfl) (by exact hp)] <;>
    exact ⟨rfl, rfl, rfl, rfl, rfl, rfl, rfl⟩

theorem c2_witness :
    (("a" = "a" ∨ ("a" : String) = "a+") ∧
     (⟨some ['G'], 0, 7, none, none⟩ : Store).obj = some ['G'] ∧
     (⟨some ['G'], 0, 7, none, none⟩ : Store).fetchFail = none ∧
     (⟨some ['G'], 0, 7, none, none⟩ : Store).pushFail = none ∧
     S3File.init "b" "k" "a" ⟨some ['G'], 0, 7, none, none⟩
       = .ok ⟨"b", "k", "a", ⟨['G'], 1, true, true, false⟩⟩
           ⟨some ['G'], 1, 7, none, none⟩) ∧
    ((⟨"b", "k", "a", ⟨['G'], 1, true, true, false⟩⟩ : S3File).tempfile.pos
       = (['G'] : List Char).length ∧
     (S3File.write ⟨"b", "k", "a", ⟨['G'], 1, true, true, false⟩⟩ ['u']).1
       = .ok (['u'] : List Char).length ∧
     ((S3File.write ⟨"b", "k", "a", ⟨['G'], 1, true, true, false⟩⟩ ['u']).2).tempfile.content
       = ['G'] ++ ['u'] ∧
     ((S3File.write ((S3File.write ⟨"b", "k", "a", ⟨['G'], 1, true, true, false⟩⟩ ['u']).2)
         ['v']).2).tempfile.content = ['G'] ++ ['u'] ++ ['v'] ∧
     ((S3File.write ((S3File.write ⟨"b", "k", "a", ⟨['G'], 1, true, true, false⟩⟩ ['u']).2)
         ['v']).2).tempfile.pos = ((['G'] : List Char) ++ ['u'] ++ ['v']).length ∧
     ((S3File.close
         ((S3File.write ((S3File.write ⟨"b", "k", "a", ⟨['G'], 1, true, true, false⟩⟩ ['u']).2)
            ['v']).2) ⟨some ['G'], 1, 7, none, none⟩).2.2).obj
       = some (['G'] ++ ['u'] ++ ['v']) ∧
     ((S3File.close
         ((S3File.write ((S3File.write ⟨"b", "k", "a", ⟨['G'], 1, true, true, false⟩⟩ ['u']).2)
            ['v']).2) ⟨some ['G'], 1, 7, none, none⟩).2.2).pushCount
       = (⟨some ['G'], 0, 7, none, none⟩ : Store).pushCount + 1) :=
  ⟨⟨Or.inl rfl, rfl, rfl, rfl, rfl⟩,
   c2_append_no_seek "b" "k" "a" ['G'] ['u'] ['v'] ⟨some ['G'], 0, 7, none, none⟩
     ⟨"b", "k", "a", ⟨['G'], 1, true, true, false⟩⟩
     ⟨some ['G'], 1, 7, none, none⟩
     (Or.inl rfl) rfl rfl rfl rfl⟩

/-- C3 counterexample: a stream constructed with mode "w" is closed twice;
the first close succeeds with one push, but the second close raises the
closed-buffer error (the source seeks the already-closed scratch buffer)
instead of being error-free, contradicting the claim that close is
idempotent with no error on the second call. -/
theorem c3_counterexample :
    ((initOk (S3File.init "b" "k" "w" ⟨some ['x'], 0, 0, none, none⟩)).map
      (fun p =>
        (((S3File.close p.1 p.2).1),
         ((S3File.close (S3File.close p.1 p.2).2.1 (S3File.close p.1 p.2).2.2).1),
         ((S3File.close (S3File.close p.1 p.2).2.1 (S3File.close p.1 p.2).2.2).2.2).pushCount)))
    = some (.ok (), .error .closedFile, 1) := rfl

/-- C3 (amended): closing twice performs exactly one store push for a
writable stream (none for a read-only stream) and the second close performs
no further push; for a read-only stream the second close is an error-free
no-op, but for a writable stream the second close raises the closed-buffer
error rather than succeeding. -/
theorem c3_double_close (f g : S3File) (s t : Store)
    (hw : f.writable = true) (ho : f.tempfile.closed = false)
    (hr : f.tempfile.readableOS = true) (hp : s.pushFail = none)
    (hg : g.writable = false) :
    ((S3File.close f s).2.2).pushCount = s.pushCount + 1 ∧
    (S3File.close f s).1 = .ok () ∧
    (S3File.close (S3File.close f s).2.1 (S3File.close f s).2.2).1 = .error .closedFile ∧
    (S3File.close (S3File.close f s).2.1 (S3File.close f s).2.2).2.2 = (S3File.close f s).2.2 ∧
    (S3File.close g t).1 = .ok () ∧
    (S3File.close g t).2.2 = t ∧
    (S3File.close (S3File.close g t).2.1 t).1 = .ok () ∧
    (S3File.close (S3File.close g t).2.1 t).2.2 = t := by
  have h1 := close_writable_eval f s hw ho hr hp
  have h2 : ∀ (tfc : TempFile) (s' : Store), tfc.closed = true →
      S3File.close { f with tempfile := tfc } s' =
        (.error .closedFile, { f with tempfile := tfClose tfc }, s') := by
    intro tfc s' hc
    have hw' : ({ f with tempfile := tfc } : S3File).writable = true := hw
    simp only [S3File.close, hw', if_true, tfSeek, hc, if_pos]
  have hg1 := close_not_writable_eval g t hg
  have h2g : ∀ (tfc : TempFile) (s' : Store),
      S3File.close { g with tempfile := tfc } s' =
        (.ok (), { g with tempfile := tfClose tfc }, s') := fun tfc s' =>
    close_not_writable_eval _ _ hg
  refine ⟨?_, ?_, ?_, ?_, ?_, ?_, ?_, ?_⟩
  · rw [h1]
  · rw [h1]
  · rw [h1]
    rw [h2 _ _ rfl]
  · rw [h1]
    rw [h2 _ _ rfl]
  · rw [hg1]
  · rw [hg1]
  · rw [hg1]
    rw [h2g]
  · rw [hg1]
    rw [h2g]

theorem c3_witness :
    ((⟨"b", "k", "w", ⟨[], 0, true, true, false⟩⟩ : S3File).writable = true ∧
     (⟨"b", "k", "r", ⟨['x'], 0, true, true, false⟩⟩ : S3File).writable = false) ∧
    (((S3File.close ⟨"b", "k", "w", ⟨[], 0, true, true, false⟩⟩
        ⟨some ['x'], 0, 0, none, none⟩).2.2).pushCount
      = (⟨some ['x'], 0, 0, none, none⟩ : Store).pushCount + 1 ∧
     (S3File.close ⟨"b", "k", "w", ⟨[], 0, true, true, false⟩⟩
        ⟨some ['x'], 0, 0, none, none⟩).1 = .ok () ∧
     (S3File.close
        (S3File.close ⟨"b", "k", "w", ⟨[], 0, true, true, false⟩⟩
          ⟨some ['x'], 0, 0, none, none⟩).2.1
        (S3File.close ⟨"b", "k", "w", ⟨[], 0, true, true, false⟩⟩
          ⟨some ['x'], 0, 0, none, none⟩).2.2).1 = .error .closedFile ∧
     (S3File.close
        (S3File.close ⟨"b", "k", "w", ⟨[], 0, true, true, false⟩⟩
          ⟨some ['x'], 0, 0, none, none⟩).2.1
        (S3File.close ⟨"b", "k", "w", ⟨[], 0, true, true, false⟩⟩
          ⟨some ['x'], 0, 0, none, none⟩).2.2).2.2
      = (S3File.close ⟨"b", "k", "w", ⟨[], 0, true, true, false⟩⟩
          ⟨some ['x'], 0, 0, none, none⟩).2.2 ∧
     (S3File.close ⟨"b", "k", "r", ⟨['x'], 0, true, true, false⟩⟩
        ⟨some [], 9, 9, none, none⟩).1 = .ok () ∧
     (S3File.close ⟨"b", "k", "r", ⟨['x'], 0, true, true, false⟩⟩
        ⟨some [], 9, 9, none, none⟩).2.2 = ⟨some [], 9, 9, none, none⟩ ∧
     (S3File.close
        (S3File.close ⟨"b", "k", "r", ⟨['x'], 0, true, true, false⟩⟩
          ⟨some [], 9, 9, none, none⟩).2.1 ⟨some [], 9, 9, none, none⟩).1 = .ok () ∧
     (S3File.close
        (S3File.close ⟨"b", "k", "r", ⟨['x'], 0, true, true, false⟩⟩
          ⟨some [], 9, 9, none, none⟩).2.1 ⟨some [], 9, 9, none, none⟩).2.2
      = ⟨some [], 9, 9, none, none⟩) :=
  ⟨⟨rfl, rfl⟩,
   c3_double_close ⟨"b", "k", "w", ⟨[], 0, true, true, false⟩⟩
     ⟨"b", "k", "r", ⟨['x'], 0, true, true, false⟩⟩
     ⟨some ['x'], 0, 0, none, none⟩ ⟨some [], 9, 9, none, none⟩
     rfl rfl rfl rfl rfl⟩

/-- C7: construction-failure atomicity.  If any construction step fails
after the scratch buffer was created, the resulting failed outcome carries a
stream whose buffer is already released (closed) — the release happens
before the translated error propagates; likewise, a store-interaction
failure during `close` still releases the buffer while the error surfaces to
the caller. -/
theorem c7_failure_releases_buffer (b k m : String) (store s' t t' : Store)
    (e e' : Err) (f g g' : S3File)
    (h1 : S3File.init b k m store = .failed e f s')
    (h2 : S3File.close g t = (.error e', g', t')) :
    f.tempfile.closed = true ∧ g'.tempfile.closed = true := by
  refine ⟨init_failed_closed b k m store e f s' h1, ?_⟩
  have hc := close_tempfile_closed g t
  rw [h2] at hc
  exact hc

theorem c7_witness :
    (S3File.init "b" "k" "r" ⟨none, 0, 0, none, none⟩
       = .failed (.ioError ⟨.ENOENT, "b/k"⟩)
           ⟨"b", "k", "r", ⟨[], 0, true, true, true⟩⟩ ⟨none, 1, 0, none, none⟩ ∧
     S3File.close ⟨"b", "k", "w", ⟨['q'], 0, true, true, false⟩⟩
        ⟨none, 0, 0, none, some .sslError⟩
       = (.error (.ioError ⟨.EOPNOTSUPP, "b/k"⟩),
          ⟨"b", "k", "w", ⟨['q'], 1, true, true, true⟩⟩,
          ⟨none, 0, 1, none, some .sslError⟩)) ∧
    ((⟨"b", "k", "r", ⟨[], 0, true, true, true⟩⟩ : S3File).tempfile.closed = true ∧
     (⟨"b", "k", "w", ⟨['q'], 1, true, true, true⟩⟩ : S3File).tempfile.closed = true) :=
  ⟨⟨rfl, rfl⟩,
   c7_failure_releases_buffer "b" "k" "r" ⟨none, 0, 0, none, none⟩ ⟨none, 1, 0, none, none⟩
     ⟨none, 0, 0, none, some .sslError⟩ ⟨none, 0, 1, none, some .sslError⟩
     (.ioError ⟨.ENOENT, "b/k"⟩) (.ioError ⟨.EOPNOTSUPP, "b/k"⟩)
     ⟨"b", "k", "r", ⟨[], 0, true, true, true⟩⟩
     ⟨"b", "k", "w", ⟨['q'], 0, true, true, false⟩⟩
     ⟨"b", "k", "w", ⟨['q'], 1, true, true, true⟩⟩
     rfl rfl⟩

/-- C5 counterexample: on a stream opened write-only (mode "w", hence not
readable), `readinto` does not fail with the NotReadable error as the claim
requires — the source's `readinto` has no capability guard and reads
directly from the scratch buffer (here 0 units of the empty buffer, with a
supplied buffer of length 4). -/
theorem c5_counterexample :
    ((initOk (S3File.init "b" "k" "w" ⟨some ['x'], 0, 0, none, none⟩)).map
      (fun p => ((S3File.readinto p.1 4).1, p.1.readable)))
    = some (.ok 0, false) := rfl

/-- C5 (amended): for a stream whose mode is not readable, `read`,
`readline` and `readlines` fail with NotReadable before touching the buffer
(the stream is returned unchanged); for a stream whose mode is not writable,
`write`, `writelines` and `truncate` fail with NotWritable before any buffer
mutation; the checks are evaluated from the mode alone, and such failures do
not prevent a later close from pushing the unmodified buffer content.
`readinto`, however, is not guarded: it delegates directly to the scratch
buffer. -/
theorem c5_capability_guards (f g : S3File) (s : Store) (n limit hint : Int)
    (data : List Char) (ls : List (List Char)) (size : Option Nat)
    (hfr : f.readable = false) (hfw : f.writable = true)
    (hfo : f.tempfile.closed = false) (hfbr : f.tempfile.readableOS = true)
    (hp : s.pushFail = none)
    (hgw : g.writable = false) :
    S3File.read f n = (.error .notReadable, f) ∧
    S3File.readline f limit = (.error .notReadable, f) ∧
    S3File.readlines f hint = (.error .notReadable, f) ∧
    S3File.write g data = (.error .notWritable, g) ∧
    S3File.writelines g ls = (.error .notWritable, g) ∧
    S3File.truncate g size = (.error .notWritable, g) ∧
    ((S3File.close ((S3File.read f n).2) s).2.2).obj = some f.tempfile.content ∧
    ((S3File.close ((S3File.read f n).2) s).2.2).pushCount = s.pushCount + 1 := by
  have hread : S3File.read f n = (.error .notReadable, f) := by
    simp [S3File.read, hfr]
  have hclose := close_writable_eval f s hfw hfo hfbr hp
  refine ⟨hread, ?_, ?_, ?_, ?_, ?_, ?_, ?_⟩
  · simp [S3File.readline, hfr]
  · simp [S3File.readlines, hfr]
  · simp [S3File.write, hgw]
  · simp [S3File.writelines, hgw]
  · simp [S3File.truncate, hgw]
  · rw [hread]
    rw [hclose]
  · rw [hread]
    rw [hclose]

theorem c5_witness :
    ((⟨"b", "k", "w", ⟨['u'], 0, true, true, false⟩⟩ : S3File).readable = false ∧
     (⟨"b", "k", "w", ⟨['u'], 0, true, true, false⟩⟩ : S3File).writable = true ∧
     (⟨"b", "k", "r", ⟨['v'], 0, true, true, false⟩⟩ : S3File).writable = false) ∧
    (S3File.read ⟨"b", "k", "w", ⟨['u'], 0, true, true, false⟩⟩ (-1)
      = (.error .notReadable, ⟨"b", "k", "w", ⟨['u'], 0, true, true, false⟩⟩) ∧
     S3File.readline ⟨"b", "k", "w", ⟨['u'], 0, true, true, false⟩⟩ (-1)
      = (.error .notReadable, ⟨"b", "k", "w", ⟨['u'], 0, true, true, false⟩⟩) ∧
     S3File.readlines ⟨"b", "k", "w", ⟨['u'], 0, true, true, false⟩⟩ (-1)
      = (.error .notReadable, ⟨"b", "k", "w", ⟨['u'], 0, true, true, false⟩⟩) ∧
     S3File.write ⟨"b", "k", "r", ⟨['v'], 0, true, true, false⟩⟩ ['y']
      = (.error .notWritable, ⟨"b", "k", "r", ⟨['v'], 0, true, true, false⟩⟩) ∧
     S3File.writelines ⟨"b", "k", "r", ⟨['v'], 0, true, true, false⟩⟩ [['y']]
      = (.error .notWritable, ⟨"b", "k", "r", ⟨['v'], 0, true, true, false⟩⟩) ∧
     S3File.truncate ⟨"b", "k", "r", ⟨['v'], 0, true, true, false⟩⟩ none
      = (.error .notWritable, ⟨"b", "k", "r", ⟨['v'], 0, true, true, false⟩⟩) ∧
     ((S3File.close
        ((S3File.read ⟨"b", "k", "w", ⟨['u'], 0, true, true, false⟩⟩ (-1)).2)
        ⟨some ['x'], 0, 0, none, none⟩).2.2).obj
      = some (⟨"b", "k", "w", ⟨['u'], 0, true, true, false⟩⟩ : S3File).tempfile.content ∧
     ((S3File.close
        ((S3File.read ⟨"b", "k", "w", ⟨['u'], 0, true, true, false⟩⟩ (-1)).2)
        ⟨some ['x'], 0, 0, none, none⟩).2.2).pushCount
      = (⟨some ['x'], 0, 0, none, none⟩ : Store).pushCount + 1) :=
  ⟨⟨rfl, rfl, rfl⟩,
   c5_capability_guards ⟨"b", "k", "w", ⟨['u'], 0, true, true, false⟩⟩
     ⟨"b", "k", "r", ⟨['v'], 0, true, true, false⟩⟩
     ⟨some ['x'], 0, 0, none, none⟩ (-1) (-1) (-1) ['y'] [['y']] none
     rfl rfl rfl rfl rfl rfl⟩

/-- C6 counterexample: mode "r+" is a read-capable mode, and a stream opened
with it and closed without any content change triggers one store push — not
zero as the claim states for every read-capable mode. -/
theorem c6_counterexample :
    ((initOk (S3File.init "b" "k" "r+" ⟨some ['h', 'i'], 0, 0, none, none⟩)).map
      (fun p => (((S3File.close p.1 p.2).2.2).pushCount, (S3File.read p.1 (-1)).1)))
    = some (1, .ok ['h', 'i']) := rfl

/-- C6 (amended): for a stream opened read-only (mode "r" or "rb") with no
content changes before closing, `read()` returns exactly the content fetched
from the store, closing succeeds, the store is completely untouched by the
close (zero store-push calls), and construction itself performed no push. -/
theorem c6_read_only_no_push (b k m : String) (X : List Char) (store : Store)
    (f : S3File) (s₁ : Store)
    (hm : m = "r" ∨ m = "rb")
    (hobj : store.obj = some X) (hff : store.fetchFail = none)
    (hinit : S3File.init b k m store = .ok f s₁) :
    (S3File.read f (-1)).1 = .ok X ∧
    (S3File.close f s₁).1 = .ok () ∧
    (S3File.close f s₁).2.2 = s₁ ∧
    s₁.pushCount = store.pushCount := by
  have heval := init_read_mode_eval b k m X store hm hobj hff
  rw [heval] at hinit
  injection hinit with hf hs
  subst hf
  subst hs
  rcases hm with hm | hm <;> subst hm
  · refine ⟨?_, ?_, ?_, ?_⟩
    · simp +decide [S3File.read, tfRead,
        show S3File.readable ⟨b, k, "r", ⟨X, 0, true, true, false⟩⟩ = true from rfl]
    · rw [close_not_writable_eval ⟨b, k, "r", ⟨X, 0, true, true, false⟩⟩ _ rfl]
    · rw [close_not_writable_eval ⟨b, k, "r", ⟨X, 0, true, true, false⟩⟩ _ rfl]
    · rfl
  · refine ⟨?_, ?_, ?_, ?_⟩
    · simp +decide [S3File.read, tfRead,
        show S3File.readable ⟨b, k, "rb", ⟨X, 0, true, true, false⟩⟩ = true from rfl]
    · rw [close_not_writable_eval ⟨b, k, "rb", ⟨X, 0, true, true, false⟩⟩ _ rfl]
    · rw [close_not_writable_eval ⟨b, k, "rb", ⟨X, 0, true, true, false⟩⟩ _ rfl]
    · rfl

theorem c6_witness :
    ((some "r" = some "r" ∨ some "r" = some "rb") ∧
     S3File.init "bt" "kt" "r" ⟨some ['G', 'e'], 0, 0, none, none⟩
       = .ok ⟨"bt", "kt", "r", ⟨['G', 'e'], 0, true, true, false⟩⟩
           ⟨some ['G', 'e'], 1, 0, none, none⟩) ∧
    ((S3File.read ⟨"bt", "kt", "r", ⟨['G', 'e'], 0, true, true, false⟩⟩ (-1)).1
       = .ok ['G', 'e'] ∧
     (S3File.close ⟨"bt", "kt", "r", ⟨['G', 'e'], 0, true, true, false⟩⟩
        ⟨some ['G', 'e'], 1, 0, none, none⟩).1 = .ok () ∧
     (S3File.close ⟨"bt", "kt", "r", ⟨['G', 'e'], 0, true, true, false⟩⟩
        ⟨some ['G', 'e'], 1, 0, none, none⟩).2.2 = ⟨some ['G', 'e'], 1, 0, none, none⟩ ∧
     (⟨some ['G', 'e'], 1, 0, none, none⟩ : Store).pushCount
       = (⟨some ['G', 'e'], 0, 0, none, none⟩ : Store).pushCount) :=
  ⟨⟨Or.inl rfl, rfl⟩,
   c6_read_only_no_push "bt" "kt" "r" ['G', 'e'] ⟨some ['G', 'e'], 0, 0, none, none⟩
     ⟨"bt", "kt", "r", ⟨['G', 'e'], 0, true, true, false⟩⟩
     ⟨some ['G', 'e'], 1, 0, none, none⟩ (Or.inl rfl) rfl rfl rfl⟩

/-- C8: truncate semantics.  On a writable stream, `truncate()` with no
argument resizes the buffer to the current cursor position and returns that
position; `truncate sz` resizes the buffer to exactly `sz` units (taking the
prefix when shrinking) and returns `sz`, and a subsequent close pushes
exactly the truncated buffer, whose length is `sz`.  On a non-writable
stream both forms fail with NotWritable. -/
theorem c8_truncate_semantics (f g : S3File) (s : Store) (sz : Nat)
    (hw : f.writable = true) (ho : f.tempfile.closed = false)
    (hwos : f.tempfile.writableOS = true) (hros : f.tempfile.readableOS = true)
    (hp : s.pushFail = none)
    (hg : g.writable = false) :
    (S3File.truncate f none).1 = .ok f.tempfile.pos ∧
    ((S3File.truncate f none).2).tempfile.content.length = f.tempfile.pos ∧
    (S3File.truncate f (some sz)).1 = .ok sz ∧
    ((S3File.truncate f (some sz)).2).tempfile.content.length = sz ∧
    (sz ≤ f.tempfile.content.length →
      ((S3File.truncate f (some sz)).2).tempfile.content = f.tempfile.content.take sz) ∧
    ((S3File.close ((S3File.truncate f (some sz)).2) s).2.2).obj
      = some (((S3File.truncate f (some sz)).2).tempfile.content) ∧
    (((S3File.close ((S3File.truncate f (some sz)).2) s).2.2).obj).map List.length
      = some sz ∧
    S3File.truncate g none = (.error .notWritable, g) ∧
    S3File.truncate g (some sz) = (.error .notWritable, g) := by
  have hN := truncate_none_eval f hw ho hwos
  have hS := truncate_some_eval f sz hw ho hwos
  have hclose := close_writable_eval ((S3File.truncate f (some sz)).2) s
    (by rw [hS]; exact hw) (by rw [hS]; exact ho) (by rw [hS]; exact hros) hp
  refine ⟨?_, ?_, ?_, ?_, ?_, ?_, ?_, ?_, ?_⟩
  · rw [hN]
  · rw [hN]
    exact resize_length f.tempfile.content f.tempfile.pos
  · rw [hS]
  · rw [hS]
    exact resize_length f.tempfile.content sz
  · intro h
    simp only [hS]
    simp [h]
  · rw [hclose]
  · rw [hclose]
    simp only [Option.map_some']
    rw [hS]
    exact congrArg some (resize_length f.tempfile.content sz)
  · simp [S3File.truncate, hg]
  · simp [S3File.truncate, hg]

theorem c8_witness :
    ((⟨"b", "k", "r+", ⟨['a', 'b', 'c', 'd', 'e', 'f'], 2, true, true, false⟩⟩
        : S3File).writable = true ∧
     (⟨"b", "k", "r", ⟨['v'], 0, true, true, false⟩⟩ : S3File).writable = false) ∧
    ((S3File.truncate ⟨"b", "k", "r+", ⟨['a', 'b', 'c', 'd', 'e', 'f'], 2, true, true, false⟩⟩
        none).1
      = .ok (⟨"b", "k", "r+", ⟨['a', 'b', 'c', 'd', 'e', 'f'], 2, true, true, false⟩⟩
          : S3File).tempfile.pos ∧
     ((S3File.truncate ⟨"b", "k", "r+", ⟨['a', 'b', 'c', 'd', 'e', 'f'], 2, true, true, false⟩⟩
        none).2).tempfile.content.length
      = (⟨"b", "k", "r+", ⟨['a', 'b', 'c', 'd', 'e', 'f'], 2, true, true, false⟩⟩
          : S3File).tempfile.pos ∧
     (S3File.truncate ⟨"b", "k", "r+", ⟨['a', 'b', 'c', 'd', 'e', 'f'], 2, true, true, false⟩⟩
        (some 3)).1 = .ok 3 ∧
     ((S3File.truncate ⟨"b", "k", "r+", ⟨['a', 'b', 'c', 'd', 'e', 'f'], 2, true, true, false⟩⟩
        (some 3)).2).tempfile.content.length = 3 ∧
     (3 ≤ (⟨"b", "k", "r+", ⟨['a', 'b', 'c', 'd', 'e', 'f'], 2, true, true, false⟩⟩
          : S3File).tempfile.content.length →
       ((S3File.truncate ⟨"b", "k", "r+", ⟨['a', 'b', 'c', 'd', 'e', 'f'], 2, true, true, false⟩⟩
          (some 3)).2).tempfile.content
        = (⟨"b", "k", "r+", ⟨['a', 'b', 'c', 'd', 'e', 'f'], 2, true, true, false⟩⟩
            : S3File).tempfile.content.take 3) ∧
     ((S3File.close
        ((S3File.truncate ⟨"b", "k", "r+", ⟨['a', 'b', 'c', 'd', 'e', 'f'], 2, true, true, false⟩⟩
           (some 3)).2) ⟨some [], 0, 0, none, none⟩).2.2).obj
      = some (((S3File.truncate
          ⟨"b", "k", "r+", ⟨['a', 'b', 'c', 'd', 'e', 'f'], 2, true, true, false⟩⟩
          (some 3)).2).tempfile.content) ∧
     (((S3File.close
        ((S3File.truncate ⟨"b", "k", "r+", ⟨['a', 'b', 'c', 'd', 'e', 'f'], 2, true, true, false⟩⟩
           (some 3)).2) ⟨some [], 0, 0, none, none⟩).2.2).obj).map List.length = some 3 ∧
     S3File.truncate ⟨"b", "k", "r", ⟨['v'], 0, true, true, false⟩⟩ none
      = (.error .notWritable, ⟨"b", "k", "r", ⟨['v'], 0, true, true, false⟩⟩) ∧
     S3File.truncate ⟨"b", "k", "r", ⟨['v'], 0, true, true, false⟩⟩ (some 3)
      = (.error .notWritable, ⟨"b", "k", "r", ⟨['v'], 0, true, true, false⟩⟩)) :=
  ⟨⟨rfl, rfl⟩,
   c8_truncate_semantics
     ⟨"b", "k", "r+", ⟨['a', 'b', 'c', 'd', 'e', 'f'], 2, true, true, false⟩⟩
     ⟨"b", "k", "r", ⟨['v'], 0, true, true, false⟩⟩
     ⟨some [], 0, 0, none, none⟩ 3 rfl rfl rfl rfl rfl rfl⟩

/-- C10 counterexample: the claim says an arbitrary unrecognized token such
as `"q"` still constructs a stream that fetches the remote object; in fact
the scratch-buffer layer rejects the token, no stream is constructed and no
fetch happens. -/
theorem c10_counterexample :
    S3File.init "b" "k" "q" ⟨some ['x'], 0, 0, none, none⟩ =
      .invalidMode "q" ⟨some ['x'], 0, 0, none, none⟩ ∧
    (initStore (S3File.init "b" "k" "q" ⟨some ['x'], 0, 0, none, none⟩)).fetchCount = 0 ∧
    initOk (S3File.init "b" "k" "q" ⟨some ['x'], 0, 0, none, none⟩) = none := by
  refine ⟨?_, ?_, ?_⟩ <;> rfl

/-- C10 (amended): for every mode string, `readable` is true iff the mode
contains `r` or `+` and `writable` iff it contains `w`, `a`, `+` or `x`
(pure substring membership); construction performs a full remote fetch iff
the scratch-buffer layer accepts the rewritten token and the mode contains
`a` or none of `a`, `w`, `x`.  An unrecognized token (e.g. `"q"`) is
rejected at scratch-buffer creation before any fetch, so no stream is
constructed for it. -/
theorem c10_membership_and_fetch (bucket key mode : String) (tf : TempFile) (store : Store) :
    (S3File.readable ⟨bucket, key, mode, tf⟩ = (chIn 'r' mode || chIn '+' mode)) ∧
    (S3File.writable ⟨bucket, key, mode, tf⟩
      = (chIn 'w' mode || chIn 'a' mode || chIn '+' mode || chIn 'x' mode)) ∧
    (initStore (S3File.init bucket key mode store)).fetchCount
      = store.fetchCount +
        (if validOpenModeL mode.data &&
            (chIn 'a' mode || (!(chIn 'a' mode) && !(chIn 'w' mode) && !(chIn 'x' mode)))
         then 1 else 0) := by
  refine ⟨rfl, rfl, ?_⟩
  simp only [S3File.init]
  rw [valid_subUpdatable]
  by_cases hv : validOpenModeL mode.data
  · by_cases ha : chIn 'a' mode
    · simp [hv, ha, initFetch_fetchCount]
    · by_cases hw : chIn 'w' mode
      · simp [hv, ha, hw, initStore]
      · by_cases hx : chIn 'x' mode
        · simp [hv, ha, hw, hx, initStore]
        · simp [hv, ha, hw, hx, initFetch_fetchCount]
  · simp [eq_false_of_ne_true hv, initStore]

/-- C9: if construction fails after the scratch buffer exists (here: the
fetch of mode "a" or "r+" raises NotFound because the object is missing) and
the mode makes the stream writable, the cleanup path invokes `close`, which
pushes the (empty) buffer once before releasing it — so the failed open
itself creates the remote object — and when that cleanup push fails, its
translated error replaces the original construction error. -/
theorem c9_failed_open_pushes (b k : String) (st : Store)
    (h1 : st.obj = none) (h2 : st.fetchFail = none) (h3 : st.pushFail = none) :
    S3File.init b k "a" st
      = .failed (.ioError ⟨.ENOENT, b ++ "/" ++ k⟩)
          ⟨b, k, "a", ⟨[], 0, true, true, true⟩⟩
          { st with obj := some [], fetchCount := st.fetchCount + 1,
                    pushCount := st.pushCount + 1 } ∧
    S3File.init b k "r+" st
      = .failed (.ioError ⟨.ENOENT, b ++ "/" ++ k⟩)
          ⟨b, k, "r+", ⟨[], 0, true, true, true⟩⟩
          { st with obj := some [], fetchCount := st.fetchCount + 1,
                    pushCount := st.pushCount + 1 } ∧
    initFailedErr (S3File.init b k "a" { st with pushFail := some .sslError })
      = some (.ioError ⟨.EOPNOTSUPP, b ++ "/" ++ k⟩) ∧
    (initStore (S3File.init b k "a" { st with pushFail := some .sslError })).pushCount
      = st.pushCount + 1 := by
  refine ⟨?_, ?_, ?_, ?_⟩ <;>
    simp +decide [S3File.init, initFetch, initCleanup, S3File.close, S3File.writable,
      S3File.path, storeFetch, storePush, tfWrite, tfSeek, tfRead, tfClose, s3errors,
      initFailedErr, initStore, h1, h2, h3, chIn,
      show subUpdatable "a" = "a+" from rfl, show subUpdatable "r+" = "r+" from rfl]

theorem c9_witness :
    ((⟨none, 0, 0, none, none⟩ : Store).obj = none ∧
     (⟨none, 0, 0, none, none⟩ : Store).fetchFail = none ∧
     (⟨none, 0, 0, none, none⟩ : Store).pushFail = none) ∧
    (S3File.init "b" "k" "a" ⟨none, 0, 0, none, none⟩
      = .failed (.ioError ⟨.ENOENT, "b" ++ "/" ++ "k"⟩)
          ⟨"b", "k", "a", ⟨[], 0, true, true, true⟩⟩
          ⟨some [], 1, 1, none, none⟩ ∧
     S3File.init "b" "k" "r+" ⟨none, 0, 0, none, none⟩
      = .failed (.ioError ⟨.ENOENT, "b" ++ "/" ++ "k"⟩)
          ⟨"b", "k", "r+", ⟨[], 0, true, true, true⟩⟩
          ⟨some [], 1, 1, none, none⟩ ∧
     initFailedErr (S3File.init "b" "k" "a" ⟨none, 0, 0, none, some .sslError⟩)
      = some (.ioError ⟨.EOPNOTSUPP, "b" ++ "/" ++ "k"⟩) ∧
     (initStore (S3File.init "b" "k" "a" ⟨none, 0, 0, none, some .sslError⟩)).pushCount
      = (⟨none, 0, 0, none, none⟩ : Store).pushCount + 1) :=
  ⟨⟨rfl, rfl, rfl⟩, c9_failed_open_pushes "b" "k" ⟨none, 0, 0, none, none⟩ rfl rfl rfl⟩

end S3FileModel
